import Mathlib

/-!
Shallow embedding of `src/rate-limiter.ts` (ShopifyRateLimiter): the Lua
admission script (`syncScript`), config validation and defaulting
(`validateConfig` / `checkLimit`), the floor-protected release script
(`releaseConcurrency`), and tenant cleanup (`cleanupShop`).

Lua numbers are modelled as rationals, the Redis keys of one tenant as a
record of optional values (absent key = `none`), and the concurrency key
(an integer counter under INCR/DECR) as an optional integer together with
its TTL.  Redis SET clears a key's TTL; EXPIRE sets it.
-/

/-- Decoded Shopify throttle state (`interface ShopifyThrottle`). -/
structure ShopifyThrottle where
  maximumAvailable : ℚ
  currentlyAvailable : ℚ
  restoreRate : ℚ
  deriving DecidableEq

/-- The raw string stored at the shopifyStateKey, restricted to the stored
values on which the script runs to completion: JSON that fails to decode
(`invalidJson`, which also stands for a decoded `false` or a decoded string —
both are likewise silently ignored, see `snapshotStep` below), or a decoded
object whose three expected fields are each a number (`some`) or
missing/non-numeric (`none`).  A stored top-level number, `true` or `null`
is NOT representable here: on those the unguarded index
`state.currentlyAvailable` at line 170 raises and aborts the script — that
case is modelled by `DecodedSnapshot.truthyScalar` below. -/
inductive RawSnapshot where
  | invalidJson : RawSnapshot
  | json (maximumAvailable currentlyAvailable restoreRate : Option ℚ) : RawSnapshot
  deriving DecidableEq

/-- The script's snapshot validation (rate-limiter.ts lines 167-172) on the
non-aborting stored values: `pcall(cjson.decode, ...)` must succeed and all
three fields must have type number; otherwise the snapshot is ignored. -/
def parseSnapshot : RawSnapshot → Option ShopifyThrottle
  | .json (some m) (some c) (some r) => some ⟨m, c, r⟩
  | _ => none

/-- Every possible outcome of `pcall(cjson.decode, shopifyState)` on a stored
snapshot string (lines 167-168): the decode raises (`failed`), or it returns
the boolean `false` (`falsy`), a truthy non-indexable scalar — a number,
`true`, or the `null` sentinel — (`truthyScalar`), a string (`str`, indexable
through the string metatable, every field `nil`), or a table whose three
expected fields are each a number (`some`) or missing/non-numeric (`none`). -/
inductive DecodedSnapshot where
  | failed : DecodedSnapshot
  | falsy : DecodedSnapshot
  | truthyScalar : DecodedSnapshot
  | str : DecodedSnapshot
  | table (maximumAvailable currentlyAvailable restoreRate : Option ℚ) : DecodedSnapshot
  deriving DecidableEq

/-- The snapshot-handling step (lines 166-186) over the full decode-outcome
space: a failed decode, a decoded `false` (falsy, so `if success and state`
skips the block) and a decoded string (fields index to `nil`) are silently
ignored; a well-typed table yields the override; but a truthy non-indexable
scalar passes the `if success and state` guard and then the unguarded index
`state.currentlyAvailable` at line 170 raises, aborting the script before
any key is written — Redis surfaces the error to the caller. -/
def snapshotStep : DecodedSnapshot → Except String (Option ShopifyThrottle)
  | .failed => .ok none
  | .falsy => .ok none
  | .truthyScalar => .error "attempt to index a non-table value"
  | .str => .ok none
  | .table (some m) (some c) (some r) => .ok (some ⟨m, c, r⟩)
  | .table _ _ _ => .ok none

/-- The decode outcome a representable stored value produces. -/
def decodedOfRaw : RawSnapshot → DecodedSnapshot
  | .invalidJson => .failed
  | .json m c r => .table m c r

/-- The four Redis keys of one tenant (tokens, timestamp, Shopify state,
concurrency), each `none` when absent, plus the concurrency key's TTL. -/
structure TenantState where
  tokens : Option ℚ
  timestamp : Option ℚ
  snapshot : Option RawSnapshot
  concurrency : Option ℤ
  concurrencyTtl : Option ℕ
  deriving DecidableEq

/-- The script's eight numeric arguments ARGV[1]-ARGV[8] (after `tonumber`). -/
structure Args where
  cost : ℚ
  tokensPerSecond : ℚ
  bucketCapacity : ℚ
  maxConcurrency : ℚ
  baseMargin : ℚ
  concurrencyMultiplier : ℚ
  concurrencyFactor : ℚ
  baseFactor : ℚ
  deriving DecidableEq

/-- `tonumber(redis.call('get', KEYS[1]) or 0)` — consumed tokens, default 0. -/
def loadedTokens (s : TenantState) : ℚ := s.tokens.getD 0

/-- `tonumber(redis.call('get', KEYS[2]) or now)` — last update, default `now`. -/
def loadedLastUpdate (s : TenantState) (now : ℚ) : ℚ := s.timestamp.getD now

/-- `(now - lastUpdate) / 1000`. -/
def elapsedSeconds (s : TenantState) (now : ℚ) : ℚ :=
  (now - loadedLastUpdate s now) / 1000

/-- Token regeneration (lines 161-163):
`math.max(0, currentTokens - elapsedSeconds * tokensPerSecond)`. -/
def decayedTokens (a : Args) (s : TenantState) (now : ℚ) : ℚ :=
  max 0 (loadedTokens s - elapsedSeconds s now * a.tokensPerSecond)

/-- The well-typed throttle snapshot stored for the tenant, if any. -/
def storedThrottle (s : TenantState) : Option ShopifyThrottle :=
  s.snapshot.bind parseSnapshot

/-- The `currentTokens` value used by the admission check: the decayed value,
overwritten (line 174) by `bucketCapacity - state.currentlyAvailable` when a
well-typed snapshot is present.  Note the script uses the caller-supplied
`bucketCapacity` here: line 174 runs before line 176 reassigns
`bucketCapacity` to `state.maximumAvailable`. -/
def currentTokens (a : Args) (s : TenantState) (now : ℚ) : ℚ :=
  match storedThrottle s with
  | some st => a.bucketCapacity - st.currentlyAvailable
  | none => decayedTokens a s now

/-- `tokensPerSecond` after the snapshot override (line 175). -/
def effTokensPerSecond (a : Args) (s : TenantState) : ℚ :=
  match storedThrottle s with
  | some st => st.restoreRate
  | none => a.tokensPerSecond

/-- `bucketCapacity` after the snapshot override (line 176). -/
def effBucketCapacity (a : Args) (s : TenantState) : ℚ :=
  match storedThrottle s with
  | some st => st.maximumAvailable
  | none => a.bucketCapacity

/-- `tonumber(redis.call('get', KEYS[4]) or 0)` — concurrency, default 0. -/
def loadedConcurrency (s : TenantState) : ℤ := s.concurrency.getD 0

/-- The concurrency value after the negative-counter repair (lines 190-193). -/
def clampedConcurrency (s : TenantState) : ℤ := max 0 (loadedConcurrency s)

/-- `effectiveConcurrency = currentConcurrency + 1` (line 194). -/
def effectiveConcurrency (s : TenantState) : ℤ := clampedConcurrency s + 1

/-- `remainingCapacity = bucketCapacity - currentTokens` (line 197). -/
def remainingCapacity (a : Args) (s : TenantState) (now : ℚ) : ℚ :=
  effBucketCapacity a s - currentTokens a s now

/-- `capacityPercentage = (remainingCapacity / bucketCapacity) * 100` (line 198). -/
def capacityPercentage (a : Args) (s : TenantState) (now : ℚ) : ℚ :=
  remainingCapacity a s now / effBucketCapacity a s * 100

/-- Dynamic base margin (lines 201-214): scaled by `1 + (30 - pct)/30` below
30% capacity and by a further 1.5 below 10%. -/
def dynamicBaseMargin (a : Args) (s : TenantState) (now : ℚ) : ℚ :=
  let p := capacityPercentage a s now
  if p < 30 then
    let m := a.baseMargin * (1 + (30 - p) / 30)
    if p < 10 then m * (3 / 2) else m
  else a.baseMargin

/-- Dynamic concurrency multiplier, scaled identically (lines 201-214). -/
def dynamicConcurrencyMultiplier (a : Args) (s : TenantState) (now : ℚ) : ℚ :=
  let p := capacityPercentage a s now
  if p < 30 then
    let m := a.concurrencyMultiplier * (1 + (30 - p) / 30)
    if p < 10 then m * (3 / 2) else m
  else a.concurrencyMultiplier

/-- `math.min(maxConcurrency, effectiveConcurrency) * dynamicConcurrencyMultiplier`
(line 224). -/
def concurrencyMargin (a : Args) (s : TenantState) (now : ℚ) : ℚ :=
  min a.maxConcurrency (effectiveConcurrency s : ℚ) * dynamicConcurrencyMultiplier a s now

/-- `safetyMargin = dynamicBaseMargin + concurrencyMargin` (line 225). -/
def safetyMargin (a : Args) (s : TenantState) (now : ℚ) : ℚ :=
  dynamicBaseMargin a s now + concurrencyMargin a s now

/-- `effectiveCapacity = bucketCapacity - safetyMargin` (line 226). -/
def effectiveCapacity (a : Args) (s : TenantState) (now : ℚ) : ℚ :=
  effBucketCapacity a s - safetyMargin a s now

/-- `capacityFactor = 1 + math.max(0, (30 - capacityPercentage) / 30)` (line 229). -/
def capacityFactor (a : Args) (s : TenantState) (now : ℚ) : ℚ :=
  1 + max 0 ((30 - capacityPercentage a s now) / 30)

/-- The locally computed concurrency factor that shadows ARGV[7] (line 230):
`1 + (effectiveConcurrency / maxConcurrency)`. -/
def localConcurrencyFactor (a : Args) (s : TenantState) : ℚ :=
  1 + (effectiveConcurrency s : ℚ) / a.maxConcurrency

/-- `adjustedCost = cost * capacityFactor * concurrencyFactor` (line 231). -/
def adjustedCost (a : Args) (s : TenantState) (now : ℚ) : ℚ :=
  a.cost * capacityFactor a s now * localConcurrencyFactor a s

/-- The script's return tuple `[allowed, waitTimeMs, remaining]`. -/
structure ScriptResult where
  allowed : ℤ
  waitTimeMs : ℤ
  remaining : ℚ
  deriving DecidableEq

/-- The negative-counter repair (lines 190-193): a counter observed below
zero is clamped to 0 with `set` (which clears its TTL). -/
def repairConcurrency (s : TenantState) : TenantState :=
  if loadedConcurrency s < 0 then
    { s with concurrency := some 0, concurrencyTtl := none }
  else s

/-- The whole Lua admission script as a state transformer: given the script
arguments, the tenant's keys and the Redis clock `now` (ms), it returns the
reply tuple and the updated keys (lines 117-267). -/
def syncScript (a : Args) (s : TenantState) (now : ℚ) : ScriptResult × TenantState :=
  let s1 := repairConcurrency s
  let ct := currentTokens a s now
  let ec := effectiveCapacity a s now
  let ac := adjustedCost a s now
  if ct + ac ≤ ec then
    (⟨1, 0, max 0 (ec - (ct + ac))⟩,
      { s1 with
          tokens := some (ct + ac)
          timestamp := some now
          concurrency := some (clampedConcurrency s + 1)
          concurrencyTtl := some 10 })
  else
    let tokensNeeded := ac + ct - ec
    let waitFactor := a.baseFactor * capacityFactor a s now
    (⟨0, Int.ceil (tokensNeeded / effTokensPerSecond a s * 1000 * waitFactor),
       max 0 (ec - ct)⟩, s1)

/-- Caller-supplied configuration (`interface RateLimitConfig`); the optional
fields are `none` when omitted. -/
structure RateLimitConfig where
  bucketCapacity : ℚ
  tokensPerSecond : ℚ
  maxConcurrency : Option ℚ
  baseMargin : Option ℚ
  concurrencyMultiplier : Option ℚ
  concurrencyFactor : Option ℚ
  baseFactor : Option ℚ
  deriving DecidableEq

/-- JavaScript truthiness of an optional number: `undefined`, and the number
0, are falsy. -/
def jsTruthy : Option ℚ → Bool
  | none => false
  | some x => if x = 0 then false else true

/-- JavaScript `value || default`. -/
def jsOrDefault (o : Option ℚ) (d : ℚ) : ℚ :=
  if jsTruthy o then o.getD 0 else d

/-- `validateConfig` (lines 276-280).  The third check is the JS condition
`config.maxConcurrency && config.maxConcurrency <= 0`. -/
def validateConfig (c : RateLimitConfig) : Except String Unit :=
  if c.bucketCapacity ≤ 0 then .error "Invalid bucket capacity"
  else if c.tokensPerSecond ≤ 0 then .error "Invalid tokens per second"
  else if jsTruthy c.maxConcurrency ∧ c.maxConcurrency.getD 0 ≤ 0 then
    .error "Invalid max concurrency"
  else .ok ()

/-- `interface RateLimitResponse`. -/
structure RateLimitResponse where
  allowed : Bool
  waitTimeMs : ℤ
  remaining : ℚ
  deriving DecidableEq

/-- The argument vector `checkLimit` passes to the script (lines 300-314),
with the JS `||` defaults. -/
def argsOfConfig (cost : ℚ) (c : RateLimitConfig) : Args :=
  { cost := cost
    tokensPerSecond := c.tokensPerSecond
    bucketCapacity := c.bucketCapacity
    maxConcurrency := jsOrDefault c.maxConcurrency 5
    baseMargin := jsOrDefault c.baseMargin 70
    concurrencyMultiplier := jsOrDefault c.concurrencyMultiplier 10
    concurrencyFactor := jsOrDefault c.concurrencyFactor (1 / 5)
    baseFactor := jsOrDefault c.baseFactor (11 / 10) }

/-- `checkLimit` (lines 292-321): validate, run the script, convert the
reply.  A validation failure is an error before any store access, so the
state is untouched; a successful run returns the response and the new
state. -/
def checkLimit (s : TenantState) (cost : ℚ) (c : RateLimitConfig) (now : ℚ) :
    Except String (RateLimitResponse × TenantState) :=
  match validateConfig c with
  | .error e => .error e
  | .ok _ =>
    let r := syncScript (argsOfConfig cost c) s now
    .ok (⟨r.1.allowed == 1, r.1.waitTimeMs, r.1.remaining⟩, r.2)

/-- `releaseConcurrency` (lines 326-345): the safe-decrement script.  DECR
keeps the key's TTL; the `set 0` branch clears it. -/
def releaseConcurrency (s : TenantState) : TenantState :=
  let current := s.concurrency.getD 0
  if current > 0 then { s with concurrency := some (current - 1) }
  else { s with concurrency := some 0, concurrencyTtl := none }

/-- `cleanupShop` (lines 358-366): deletes the tenant's four keys. -/
def cleanupShop (_ : TenantState) : TenantState :=
  { tokens := none, timestamp := none, snapshot := none
    concurrency := none, concurrencyTtl := none }

/-- `syncShopifyState` (lines 353-356): stores the JSON-encoded snapshot. -/
def syncShopifyState (s : TenantState) (t : ShopifyThrottle) : TenantState :=
  { s with
      snapshot := some (.json (some t.maximumAvailable) (some t.currentlyAvailable)
        (some t.restoreRate)) }

/-- A never-seen tenant: all keys absent. -/
def freshState : TenantState :=
  { tokens := none, timestamp := none, snapshot := none
    concurrency := none, concurrencyTtl := none }

/-- One per-tenant operation: an admission decision or a release. -/
inductive TenantOp where
  | decide (a : Args) (now : ℚ) : TenantOp
  | release : TenantOp

/-- Effect of one operation on the tenant's keys. -/
def applyOp : TenantOp → TenantState → TenantState
  | .decide a now, s => (syncScript a s now).2
  | .release, s => releaseConcurrency s

/-- Effect of a sequence of operations. -/
def runOps (ops : List TenantOp) (s : TenantState) : TenantState :=
  ops.foldl (fun t op => applyOp op t) s

/-- The concurrency counter's value as the scripts read it (absent = 0). -/
def counterValue (s : TenantState) : ℤ := s.concurrency.getD 0

/-- The configuration used by the spec's concrete scenarios. -/
def specConfig : RateLimitConfig :=
  { bucketCapacity := 2000, tokensPerSecond := 100, maxConcurrency := some 5
    baseMargin := some 70, concurrencyMultiplier := some 10
    concurrencyFactor := some (1 / 5), baseFactor := some (11 / 10) }


/-- Claim C1: for every tenant state, arguments and clock, the script allows
the request exactly when `currentTokens + adjustedCost ≤ effectiveCapacity`,
and in that case it writes `currentTokens + adjustedCost` to the token key,
sets the timestamp key to `now`, raises the concurrency counter by one with a
10-second expiry, and replies `[1, 0, max 0 (effectiveCapacity -
(currentTokens + adjustedCost))]`. -/
theorem c1_allow_branch (a : Args) (s : TenantState) (now : ℚ) :
    ((syncScript a s now).1.allowed = 1 ↔
      currentTokens a s now + adjustedCost a s now ≤ effectiveCapacity a s now)
    ∧ (currentTokens a s now + adjustedCost a s now ≤ effectiveCapacity a s now →
        syncScript a s now =
          (⟨1, 0, max 0 (effectiveCapacity a s now -
              (currentTokens a s now + adjustedCost a s now))⟩,
           { repairConcurrency s with
               tokens := some (currentTokens a s now + adjustedCost a s now)
               timestamp := some now
               concurrency := some (clampedConcurrency s + 1)
               concurrencyTtl := some 10 })) := by
  constructor
  · by_cases h : currentTokens a s now + adjustedCost a s now ≤ effectiveCapacity a s now
    · simp [syncScript, h]
    · simp [syncScript, h]
  · intro h
    simp [syncScript, h]

/-- Witness for C1: the spec's scenario 1 (fresh tenant, cost 50) satisfies
the allow condition and produces the stated writes and reply. -/
theorem c1_allow_branch_witness :
    (currentTokens (argsOfConfig 50 specConfig) freshState 0 +
        adjustedCost (argsOfConfig 50 specConfig) freshState 0 ≤
      effectiveCapacity (argsOfConfig 50 specConfig) freshState 0)
    ∧ syncScript (argsOfConfig 50 specConfig) freshState 0 =
        (⟨1, 0, max 0 (effectiveCapacity (argsOfConfig 50 specConfig) freshState 0 -
            (currentTokens (argsOfConfig 50 specConfig) freshState 0 +
              adjustedCost (argsOfConfig 50 specConfig) freshState 0))⟩,
         { repairConcurrency freshState with
             tokens := some (currentTokens (argsOfConfig 50 specConfig) freshState 0 +
               adjustedCost (argsOfConfig 50 specConfig) freshState 0)
             timestamp := some 0
             concurrency := some (clampedConcurrency freshState + 1)
             concurrencyTtl := some 10 }) :=
  have h : currentTokens (argsOfConfig 50 specConfig) freshState 0 +
      adjustedCost (argsOfConfig 50 specConfig) freshState 0 ≤
      effectiveCapacity (argsOfConfig 50 specConfig) freshState 0 := by
    norm_num [currentTokens, storedThrottle, decayedTokens, loadedTokens,
      loadedLastUpdate, elapsedSeconds, adjustedCost, capacityFactor,
      localConcurrencyFactor, effectiveConcurrency, clampedConcurrency,
      loadedConcurrency, effectiveCapacity, effBucketCapacity, safetyMargin,
      dynamicBaseMargin, dynamicConcurrencyMultiplier, capacityPercentage,
      remainingCapacity, concurrencyMargin, argsOfConfig, specConfig,
      jsOrDefault, jsTruthy, freshState]
  ⟨h, (c1_allow_branch (argsOfConfig 50 specConfig) freshState 0).2 h⟩

/-- Claim C2: on rejection (with a non-negative stored counter) the script
changes no key — tokens, timestamp, snapshot, concurrency and its TTL are all
left as they were — and replies `[0, ceil(tokensNeeded / tokensPerSecond *
1000 * baseFactor * capacityFactor), max 0 (effectiveCapacity -
currentTokens)]` with `tokensNeeded = adjustedCost + currentTokens -
effectiveCapacity`. -/
theorem c2_reject_frame (a : Args) (s : TenantState) (now : ℚ)
    (h : effectiveCapacity a s now < currentTokens a s now + adjustedCost a s now)
    (hc : 0 ≤ loadedConcurrency s) :
    syncScript a s now =
      (⟨0, Int.ceil ((adjustedCost a s now + currentTokens a s now -
            effectiveCapacity a s now) / effTokensPerSecond a s * 1000 *
            a.baseFactor * capacityFactor a s now),
        max 0 (effectiveCapacity a s now - currentTokens a s now)⟩, s) := by
  have h2 : ¬ (currentTokens a s now + adjustedCost a s now ≤ effectiveCapacity a s now) :=
    not_le.mpr h
  simp [syncScript, h2, repairConcurrency, not_lt.mpr hc, mul_assoc]

/-- Witness for C2: the spec's scenario 3 (fresh tenant, cost 5000) satisfies
the rejection condition and yields the stated reply with the state untouched. -/
theorem c2_reject_frame_witness :
    (effectiveCapacity (argsOfConfig 5000 specConfig) freshState 0 <
      currentTokens (argsOfConfig 5000 specConfig) freshState 0 +
        adjustedCost (argsOfConfig 5000 specConfig) freshState 0)
    ∧ 0 ≤ loadedConcurrency freshState
    ∧ syncScript (argsOfConfig 5000 specConfig) freshState 0 =
        (⟨0, Int.ceil ((adjustedCost (argsOfConfig 5000 specConfig) freshState 0 +
              currentTokens (argsOfConfig 5000 specConfig) freshState 0 -
              effectiveCapacity (argsOfConfig 5000 specConfig) freshState 0) /
              effTokensPerSecond (argsOfConfig 5000 specConfig) freshState * 1000 *
              (argsOfConfig 5000 specConfig).baseFactor *
              capacityFactor (argsOfConfig 5000 specConfig) freshState 0),
          max 0 (effectiveCapacity (argsOfConfig 5000 specConfig) freshState 0 -
            currentTokens (argsOfConfig 5000 specConfig) freshState 0)⟩, freshState) :=
  have h : effectiveCapacity (argsOfConfig 5000 specConfig) freshState 0 <
      currentTokens (argsOfConfig 5000 specConfig) freshState 0 +
        adjustedCost (argsOfConfig 5000 specConfig) freshState 0 := by
    norm_num [currentTokens, storedThrottle, decayedTokens, loadedTokens,
      loadedLastUpdate, elapsedSeconds, adjustedCost, capacityFactor,
      localConcurrencyFactor, effectiveConcurrency, clampedConcurrency,
      loadedConcurrency, effectiveCapacity, effBucketCapacity, safetyMargin,
      dynamicBaseMargin, dynamicConcurrencyMultiplier, capacityPercentage,
      remainingCapacity, concurrencyMargin, argsOfConfig, specConfig,
      jsOrDefault, jsTruthy, freshState]
  have hc : (0 : ℤ) ≤ loadedConcurrency freshState := by
    norm_num [loadedConcurrency, freshState]
  ⟨h, hc, c2_reject_frame (argsOfConfig 5000 specConfig) freshState 0 h hc⟩

/-- Claim C6: a fresh tenant with the spec's configuration and cost 5000 is
rejected with waitTimeMs 44880 and remaining 1920, and no key is changed. -/
theorem c6_scenario_reject (now : ℚ) :
    checkLimit freshState 5000 specConfig now =
      .ok (⟨false, 44880, 1920⟩, freshState) := by
  norm_num [checkLimit, validateConfig, syncScript, argsOfConfig, specConfig,
    jsOrDefault, jsTruthy, currentTokens, storedThrottle, decayedTokens,
    loadedTokens, loadedLastUpdate, elapsedSeconds, effectiveCapacity,
    effBucketCapacity, safetyMargin, dynamicBaseMargin,
    dynamicConcurrencyMultiplier, capacityPercentage, remainingCapacity,
    concurrencyMargin, effectiveConcurrency, clampedConcurrency,
    loadedConcurrency, adjustedCost, capacityFactor, localConcurrencyFactor,
    repairConcurrency, freshState, effTokensPerSecond]

/-- A configuration that provides `maxConcurrency = 0` (and omits the other
optional fields). -/
def zeroMaxConcurrencyConfig : RateLimitConfig :=
  { bucketCapacity := 2000, tokensPerSecond := 100, maxConcurrency := some 0
    baseMargin := none, concurrencyMultiplier := none
    concurrencyFactor := none, baseFactor := none }

/-- A configuration that provides a negative `maxConcurrency`. -/
def negMaxConcurrencyConfig : RateLimitConfig :=
  { bucketCapacity := 2000, tokensPerSecond := 100, maxConcurrency := some (-1)
    baseMargin := none, concurrencyMultiplier := none
    concurrencyFactor := none, baseFactor := none }

/-- Counterexample to C3: a provided `maxConcurrency = 0` is NOT rejected.
`config.maxConcurrency && config.maxConcurrency <= 0` is false in JavaScript
because the number 0 is falsy, so validation passes, the store is accessed,
and the call even mutates state (the request is granted and recorded). -/
theorem c3_counterexample :
    validateConfig zeroMaxConcurrencyConfig = .ok ()
    ∧ checkLimit freshState 50 zeroMaxConcurrencyConfig 0 =
        .ok (⟨true, 0, 1860⟩,
          { tokens := some 60, timestamp := some 0, snapshot := none
            concurrency := some 1, concurrencyTtl := some 10 }) := by
  constructor
  · rfl
  · norm_num [checkLimit, validateConfig, syncScript, argsOfConfig,
      zeroMaxConcurrencyConfig, jsOrDefault, jsTruthy, currentTokens,
      storedThrottle, decayedTokens, loadedTokens, loadedLastUpdate,
      elapsedSeconds, effectiveCapacity, effBucketCapacity, safetyMargin,
      dynamicBaseMargin, dynamicConcurrencyMultiplier, capacityPercentage,
      remainingCapacity, concurrencyMargin, effectiveConcurrency,
      clampedConcurrency, loadedConcurrency, adjustedCost, capacityFactor,
      localConcurrencyFactor, repairConcurrency, freshState, effTokensPerSecond]

/-- Claim C3 as amended: a config with `bucketCapacity ≤ 0`,
`tokensPerSecond ≤ 0`, or a provided strictly negative `maxConcurrency` fails
with a configuration error before any store access and changes no state,
while a provided `maxConcurrency = 0` is treated exactly like an absent one
(it falls through to the default 5) and is not an error. -/
theorem c3_amended_validation (c : RateLimitConfig) (s : TenantState) (cost now : ℚ) :
    ((c.bucketCapacity ≤ 0 ∨ c.tokensPerSecond ≤ 0 ∨
        (∃ x, c.maxConcurrency = some x ∧ x < 0)) →
      ∃ e, checkLimit s cost c now = .error e)
    ∧ (c.maxConcurrency = some 0 →
        checkLimit s cost c now =
          checkLimit s cost { c with maxConcurrency := none } now) := by
  constructor
  · intro h
    have hv : ∃ e, validateConfig c = .error e := by
      unfold validateConfig
      split_ifs with h1 h2 h3
      · exact ⟨_, rfl⟩
      · exact ⟨_, rfl⟩
      · exact ⟨_, rfl⟩
      · rcases h with h | h | ⟨x, hx, hxneg⟩
        · exact absurd h h1
        · exact absurd h h2
        · refine absurd ?_ h3
          refine ⟨?_, ?_⟩ <;> simp [jsTruthy, hx]
          · intro hx0
            exact absurd hx0 (ne_of_lt hxneg)
          · exact le_of_lt hxneg
    obtain ⟨e, he⟩ := hv
    exact ⟨e, by simp [checkLimit, he]⟩
  · intro h
    simp [checkLimit, validateConfig, argsOfConfig, jsOrDefault, jsTruthy, h]

/-- Witness for the amended C3: a provided `maxConcurrency = -1` makes the
call fail, and a provided `maxConcurrency = 0` gives the same outcome as
omitting the field. -/
theorem c3_amended_validation_witness :
    (∃ e, checkLimit freshState 50 negMaxConcurrencyConfig 0 = .error e)
    ∧ checkLimit freshState 50 zeroMaxConcurrencyConfig 0 =
        checkLimit freshState 50
          { zeroMaxConcurrencyConfig with maxConcurrency := none } 0 :=
  ⟨(c3_amended_validation negMaxConcurrencyConfig freshState 50 0).1
      (Or.inr (Or.inr ⟨-1, rfl, by norm_num⟩)),
   (c3_amended_validation zeroMaxConcurrencyConfig freshState 50 0).2 rfl⟩

/-- A stored snapshot whose `maximumAvailable` (1000) differs from the
caller-supplied `bucketCapacity` (2000). -/
def mismatchedSnapshotState : TenantState :=
  { tokens := some 0, timestamp := some 0
    snapshot := some (.json (some 1000) (some 100) (some 50))
    concurrency := none, concurrencyTtl := none }

/-- Counterexample to C4: with caller `bucketCapacity = 2000` and snapshot
`{maximumAvailable: 1000, currentlyAvailable: 100}`, the script derives the
consumed-token value `2000 - 100 = 1900` (line 174 uses the caller's
`bucketCapacity`), not `maximumAvailable - currentlyAvailable = 900` as the
claim states. -/
theorem c4_counterexample :
    currentTokens (argsOfConfig 150 specConfig) mismatchedSnapshotState 0 = 1900
    ∧ ((1000 : ℚ) - 100 = 900)
    ∧ ((1900 : ℚ) ≠ 900) := by
  refine ⟨?_, by norm_num, by norm_num⟩
  norm_num [currentTokens, storedThrottle, parseSnapshot,
    mismatchedSnapshotState, argsOfConfig, specConfig, jsOrDefault, jsTruthy]

/-- Claim C4 as amended: a well-formed snapshot overrides `tokensPerSecond`
with `restoreRate` and `bucketCapacity` with `maximumAvailable`, but the
overridden consumed-token value is the caller-supplied `bucketCapacity -
currentlyAvailable` — which agrees with `maximumAvailable -
currentlyAvailable` only when `maximumAvailable` equals the caller's
`bucketCapacity`. -/
theorem c4_amended_override (a : Args) (s : TenantState) (now : ℚ)
    (st : ShopifyThrottle) (h : storedThrottle s = some st) :
    currentTokens a s now = a.bucketCapacity - st.currentlyAvailable
    ∧ effTokensPerSecond a s = st.restoreRate
    ∧ effBucketCapacity a s = st.maximumAvailable := by
  simp [currentTokens, effTokensPerSecond, effBucketCapacity, h]

/-- Witness for the amended C4 at the mismatched snapshot. -/
theorem c4_amended_override_witness :
    storedThrottle mismatchedSnapshotState = some ⟨1000, 100, 50⟩
    ∧ (currentTokens (argsOfConfig 150 specConfig) mismatchedSnapshotState 0 =
        (argsOfConfig 150 specConfig).bucketCapacity - 100
      ∧ effTokensPerSecond (argsOfConfig 150 specConfig) mismatchedSnapshotState = 50
      ∧ effBucketCapacity (argsOfConfig 150 specConfig) mismatchedSnapshotState = 1000) :=
  ⟨rfl, c4_amended_override (argsOfConfig 150 specConfig) mismatchedSnapshotState 0
    ⟨1000, 100, 50⟩ rfl⟩

/-- A tenant one second past its last update holding a well-typed snapshot
(`{maximumAvailable: 2000, currentlyAvailable: 100, restoreRate: 100}`). -/
def decayedSnapshotState : TenantState :=
  { tokens := some 0, timestamp := some 0
    snapshot := some (.json (some 2000) (some 100) (some 100))
    concurrency := none, concurrencyTtl := none }

/-- Counterexample to C5: with the snapshot above, `now = 1000` and
`lastUpdateMs = 0`, the admission check uses the snapshot-derived value 1900
as is; the claim's formula `max(0, 1900 - 1s × 100/s) = 1800` does not match,
because the script applies decay first (lines 160-163) and the snapshot
override (line 174) then replaces the decayed value outright. -/
theorem c5_counterexample :
    currentTokens (argsOfConfig 150 specConfig) decayedSnapshotState 1000 = 1900
    ∧ max (0 : ℚ) (1900 - (1000 - 0) / 1000 * 100) = 1800
    ∧ ((1900 : ℚ) ≠ 1800) := by
  refine ⟨?_, by norm_num, by norm_num⟩
  norm_num [currentTokens, storedThrottle, parseSnapshot, decayedSnapshotState,
    argsOfConfig, specConfig, jsOrDefault, jsTruthy]

/-- The script's reply depends on the tenant state only through the
post-override token count, the effective restore rate, the effective bucket
capacity and the concurrency key. -/
theorem scriptReply_congr (a : Args) (s s2 : TenantState) (now : ℚ)
    (hct : currentTokens a s now = currentTokens a s2 now)
    (htps : effTokensPerSecond a s = effTokensPerSecond a s2)
    (hbc : effBucketCapacity a s = effBucketCapacity a s2)
    (hcc : s.concurrency = s2.concurrency) :
    (syncScript a s now).1 = (syncScript a s2 now).1 := by
  have hlc : loadedConcurrency s = loadedConcurrency s2 := by
    simp only [loadedConcurrency, hcc]
  have hec : effectiveConcurrency s = effectiveConcurrency s2 := by
    simp only [effectiveConcurrency, clampedConcurrency, hlc]
  have hrc : remainingCapacity a s now = remainingCapacity a s2 now := by
    simp only [remainingCapacity, hct, hbc]
  have hcp : capacityPercentage a s now = capacityPercentage a s2 now := by
    simp only [capacityPercentage, hrc, hbc]
  have hdcm : dynamicConcurrencyMultiplier a s now =
      dynamicConcurrencyMultiplier a s2 now := by
    simp only [dynamicConcurrencyMultiplier, hcp]
  have hsm : safetyMargin a s now = safetyMargin a s2 now := by
    simp only [safetyMargin, dynamicBaseMargin, concurrencyMargin, hcp, hec, hdcm]
  have heff : effectiveCapacity a s now = effectiveCapacity a s2 now := by
    simp only [effectiveCapacity, hbc, hsm]
  have hcf : capacityFactor a s now = capacityFactor a s2 now := by
    simp only [capacityFactor, hcp]
  have hac : adjustedCost a s now = adjustedCost a s2 now := by
    simp only [adjustedCost, localConcurrencyFactor, hcf, hec]
  simp only [syncScript]
  rw [hct, hac, heff, htps, hcf]
  split_ifs with hcond
  · rfl
  · rfl

/-- Claim C5 as amended: decay (spec step 5) runs before the snapshot
override (spec step 4), and the override discards the decayed value — when a
well-typed snapshot is present, the consumed-token value used by the
admission check is `bucketCapacity - currentlyAvailable` with no decay
applied, and the reply is independent of the stored token and timestamp
keys. -/
theorem c5_amended_no_decay (a : Args) (s : TenantState) (now : ℚ)
    (st : ShopifyThrottle) (h : storedThrottle s = some st) :
    currentTokens a s now = a.bucketCapacity - st.currentlyAvailable
    ∧ ∀ t u : Option ℚ,
        (syncScript a { s with tokens := t, timestamp := u } now).1 =
          (syncScript a s now).1 := by
  constructor
  · simp [currentTokens, h]
  · intro t u
    have h2 : storedThrottle { s with tokens := t, timestamp := u } = some st := by
      simpa [storedThrottle] using h
    refine scriptReply_congr a _ s now ?_ ?_ ?_ rfl
    · simp [currentTokens, h, h2]
    · simp [effTokensPerSecond, h, h2]
    · simp [effBucketCapacity, h, h2]

/-- Witness for the amended C5: at the concrete snapshot state the check uses
1900 (no decay), and overwriting the stored token and timestamp keys does not
change the reply. -/
theorem c5_amended_no_decay_witness :
    storedThrottle decayedSnapshotState = some ⟨2000, 100, 100⟩
    ∧ currentTokens (argsOfConfig 150 specConfig) decayedSnapshotState 1000 =
        (argsOfConfig 150 specConfig).bucketCapacity - 100
    ∧ (syncScript (argsOfConfig 150 specConfig)
          { decayedSnapshotState with tokens := some 123, timestamp := some 456 }
          1000).1 =
        (syncScript (argsOfConfig 150 specConfig) decayedSnapshotState 1000).1 :=
  have h := c5_amended_no_decay (argsOfConfig 150 specConfig) decayedSnapshotState
    1000 ⟨2000, 100, 100⟩ rfl
  ⟨rfl, h.1, h.2 (some 123) (some 456)⟩

/-- Every single operation leaves the concurrency counter non-negative,
whatever value it held before. -/
theorem counterValue_applyOp_nonneg (op : TenantOp) (s : TenantState) :
    0 ≤ counterValue (applyOp op s) := by
  cases op with
  | release =>
    simp only [applyOp, releaseConcurrency, counterValue]
    split_ifs with h
    · simp only [Option.getD_some]
      omega
    · simp
  | decide a now =>
    simp only [applyOp, syncScript]
    split_ifs with h
    · simp only [counterValue, Option.getD_some, clampedConcurrency]
      omega
    · simp only [counterValue, repairConcurrency]
      split_ifs with h2
      · simp
      · simp only [loadedConcurrency] at h2
        omega

/-- Claim C7: starting from any state with a non-negative counter (in
particular a fresh tenant), no sequence of decisions and releases ever drives
the concurrency counter negative; a release decrements only a strictly
positive counter and otherwise clamps it to 0; and a decision leaves the
counter at its clamped value plus one (when granted) or at its clamped value
(when rejected) — the script clamps an observed negative counter to 0. -/
theorem c7_counter_never_negative :
    (∀ ops : List TenantOp, ∀ s : TenantState,
        0 ≤ counterValue s → 0 ≤ counterValue (runOps ops s))
    ∧ (∀ s : TenantState, counterValue (releaseConcurrency s) =
        if 0 < counterValue s then counterValue s - 1 else 0)
    ∧ (∀ a : Args, ∀ s : TenantState, ∀ now : ℚ,
        counterValue ((syncScript a s now).2) = clampedConcurrency s + 1
        ∨ counterValue ((syncScript a s now).2) = clampedConcurrency s) := by
  refine ⟨?_, ?_, ?_⟩
  · intro ops
    induction ops with
    | nil =>
      intro s hs
      simpa [runOps] using hs
    | cons op rest ih =>
      intro s _
      have h1 := counterValue_applyOp_nonneg op s
      simpa [runOps] using ih (applyOp op s) h1
  · intro s
    simp only [releaseConcurrency, counterValue]
    split_ifs with h
    · simp
    · simp
  · intro a s now
    simp only [syncScript]
    split_ifs with h
    · left
      simp [counterValue]
    · right
      simp only [counterValue, repairConcurrency, clampedConcurrency,
        loadedConcurrency]
      split_ifs with h2
      · simp
        omega
      · omega

/-- Witness for C7: from a fresh tenant, the sequence release; decision;
release; release (more releases than grants) still ends non-negative. -/
theorem c7_counter_never_negative_witness :
    (0 : ℤ) ≤ counterValue freshState
    ∧ (0 : ℤ) ≤ counterValue (runOps
        [.release, .decide (argsOfConfig 50 specConfig) 0, .release, .release]
        freshState) :=
  ⟨by simp [counterValue, freshState],
   c7_counter_never_negative.1
     [.release, .decide (argsOfConfig 50 specConfig) 0, .release, .release]
     freshState (by simp [counterValue, freshState])⟩

/-- The negative-counter repair commutes with erasing the snapshot key. -/
theorem repair_snapshot_erased (s : TenantState) :
    repairConcurrency { s with snapshot := none } =
      { repairConcurrency s with snapshot := none } := by
  simp only [repairConcurrency, loadedConcurrency]
  split_ifs with h
  · rfl
  · rfl

/-- With no well-typed snapshot in `s`, running the script on `s` with its
snapshot key erased gives the same updated state, except that the snapshot
key stays erased. -/
theorem scriptState_snapshot_erased (a : Args) (s : TenantState) (now : ℚ)
    (hs : storedThrottle s = none) :
    (syncScript a { s with snapshot := none } now).2 =
      { (syncScript a s now).2 with snapshot := none } := by
  have hs2 : storedThrottle { s with snapshot := none } = none := by
    simp [storedThrottle]
  have hct : currentTokens a { s with snapshot := none } now =
      currentTokens a s now := by
    simp only [currentTokens, hs, hs2, decayedTokens, loadedTokens,
      loadedLastUpdate, elapsedSeconds]
  have hbc : effBucketCapacity a { s with snapshot := none } =
      effBucketCapacity a s := by
    simp only [effBucketCapacity, hs, hs2]
  have hcp : capacityPercentage a { s with snapshot := none } now =
      capacityPercentage a s now := by
    simp only [capacityPercentage, remainingCapacity, hct, hbc]
  have heff : effectiveCapacity a { s with snapshot := none } now =
      effectiveCapacity a s now := by
    simp only [effectiveCapacity, safetyMargin, dynamicBaseMargin,
      concurrencyMargin, dynamicConcurrencyMultiplier, effectiveConcurrency,
      clampedConcurrency, loadedConcurrency, hbc, hcp]
  have hac : adjustedCost a { s with snapshot := none } now =
      adjustedCost a s now := by
    simp only [adjustedCost, capacityFactor, localConcurrencyFactor,
      effectiveConcurrency, clampedConcurrency, loadedConcurrency, hcp]
  have hcl : clampedConcurrency ({ s with snapshot := none } : TenantState) =
      clampedConcurrency s := rfl
  simp only [syncScript]
  rw [hct, hac, heff, hcl, repair_snapshot_erased]
  split_ifs with hcond
  · rfl
  · rfl

/-- On the stored snapshot values the script completes on (decode failure,
or a decoded object with a missing or non-numeric field), the malformed
snapshot is silently ignored: the reply and the token, timestamp and
concurrency key writes (and the concurrency TTL) are exactly those of a
tenant with no snapshot stored. -/
theorem malformedSnapshot_fallback (a : Args) (s : TenantState) (now : ℚ)
    (raw : RawSnapshot) (h1 : s.snapshot = some raw)
    (h2 : parseSnapshot raw = none) :
    (syncScript a s now).1 = (syncScript a { s with snapshot := none } now).1
    ∧ ((syncScript a s now).2).tokens =
        ((syncScript a { s with snapshot := none } now).2).tokens
    ∧ ((syncScript a s now).2).timestamp =
        ((syncScript a { s with snapshot := none } now).2).timestamp
    ∧ ((syncScript a s now).2).concurrency =
        ((syncScript a { s with snapshot := none } now).2).concurrency
    ∧ ((syncScript a s now).2).concurrencyTtl =
        ((syncScript a { s with snapshot := none } now).2).concurrencyTtl := by
  have hs : storedThrottle s = none := by
    simp [storedThrottle, h1, h2]
  have hstate := scriptState_snapshot_erased a s now hs
  refine ⟨?_, ?_, ?_, ?_, ?_⟩
  · refine scriptReply_congr a s _ now ?_ ?_ ?_ rfl
    · simp [currentTokens, storedThrottle, h1, h2, decayedTokens, loadedTokens,
        loadedLastUpdate, elapsedSeconds]
    · simp [effTokensPerSecond, storedThrottle, h1, h2]
    · simp [effBucketCapacity, storedThrottle, h1, h2]
  · rw [hstate]
  · rw [hstate]
  · rw [hstate]
  · rw [hstate]

/-- Claim C8 identifies a code bug: the claim's "no error is surfaced to the
caller" fails for stored top-level scalar JSON.  `cjson.decode` accepts
`"5"`, `"true"` and `"null"`; the result is truthy, so it passes the
`if success and state` guard, and the unguarded index
`state.currentlyAvailable` at line 170 raises — the script aborts (before
any key write) and Redis returns the error to the caller, against the
clear intent of the validation (the guarded decode and per-field type
checks) and of the spec's soft-error policy.  The theorem evaluates the
snapshot step at the failing input, and checks that on every stored value
the model's state space represents, the step agrees with the silent-ignore
validation `parseSnapshot` that the rest of the embedding uses. -/
theorem c8_scalar_snapshot_aborts :
    snapshotStep .truthyScalar = .error "attempt to index a non-table value"
    ∧ (∀ raw : RawSnapshot, snapshotStep (decodedOfRaw raw) = .ok (parseSnapshot raw)) := by
  refine ⟨rfl, ?_⟩
  intro raw
  cases raw with
  | invalidJson => rfl
  | json m c r => cases m <;> cases c <;> cases r <;> rfl

/-- Claim C9: cleanup deletes all four per-tenant keys, so a decision right
after cleanup is exactly the decision a never-seen tenant gets — in
particular, with the spec's scenario-1 inputs (cost 50) it reproduces
scenario 1's exact output: allowed, waitTimeMs 0, remaining 1860, with 60
tokens recorded, the timestamp set to `now` and the concurrency counter at 1
with a 10-second expiry. -/
theorem c9_cleanup_then_fresh (s : TenantState) (now : ℚ) :
    cleanupShop s = freshState
    ∧ checkLimit (cleanupShop s) 50 specConfig now =
        checkLimit freshState 50 specConfig now
    ∧ checkLimit (cleanupShop s) 50 specConfig now =
        .ok (⟨true, 0, 1860⟩,
          { tokens := some 60, timestamp := some now, snapshot := none
            concurrency := some 1, concurrencyTtl := some 10 }) := by
  refine ⟨rfl, rfl, ?_⟩
  norm_num [checkLimit, validateConfig, syncScript, argsOfConfig, specConfig,
    jsOrDefault, jsTruthy, currentTokens, storedThrottle, decayedTokens,
    loadedTokens, loadedLastUpdate, elapsedSeconds, effectiveCapacity,
    effBucketCapacity, safetyMargin, dynamicBaseMargin,
    dynamicConcurrencyMultiplier, capacityPercentage, remainingCapacity,
    concurrencyMargin, effectiveConcurrency, clampedConcurrency,
    loadedConcurrency, adjustedCost, capacityFactor, localConcurrencyFactor,
    repairConcurrency, cleanupShop, freshState, effTokensPerSecond]

/-- Claim C10: the reply and every key write of the script are independent of
the `concurrencyFactor` argument, and `checkLimit`'s outcome is independent
of the `concurrencyFactor` configuration field — the script parses ARGV[7]
and then shadows it with the locally computed
`1 + effectiveConcurrency / maxConcurrency` before any use. -/
theorem c10_concurrencyFactor_irrelevant (a : Args) (x y : ℚ) (s : TenantState)
    (now cost : ℚ) (c : RateLimitConfig) (u v : Option ℚ) :
    syncScript { a with concurrencyFactor := x } s now =
      syncScript { a with concurrencyFactor := y } s now
    ∧ checkLimit s cost { c with concurrencyFactor := u } now =
        checkLimit s cost { c with concurrencyFactor := v } now := by
  constructor
  · simp only [syncScript, currentTokens, effTokensPerSecond, effBucketCapacity,
      decayedTokens, loadedTokens, loadedLastUpdate, elapsedSeconds,
      storedThrottle, effectiveCapacity, safetyMargin, dynamicBaseMargin,
      dynamicConcurrencyMultiplier, capacityPercentage, remainingCapacity,
      concurrencyMargin, effectiveConcurrency, clampedConcurrency,
      loadedConcurrency, adjustedCost, capacityFactor, localConcurrencyFactor,
      repairConcurrency]
  · simp only [checkLimit, validateConfig, argsOfConfig, syncScript,
      currentTokens, effTokensPerSecond, effBucketCapacity, decayedTokens,
      loadedTokens, loadedLastUpdate, elapsedSeconds, storedThrottle,
      effectiveCapacity, safetyMargin, dynamicBaseMargin,
      dynamicConcurrencyMultiplier, capacityPercentage, remainingCapacity,
      concurrencyMargin, effectiveConcurrency, clampedConcurrency,
      loadedConcurrency, adjustedCost, capacityFactor, localConcurrencyFactor,
      repairConcurrency]
